import Mathlib

/-!
Verification of the Task & Reminder Scheduling subsystem and the
calendar/document export serializers of the Student-Assistance app
(src/Student-Assistance.py), via a shallow embedding in Lean 4.

Timestamps are modelled on the microsecond timeline used by Python's
time-zone-naive `datetime` objects: a `datetime` value is represented
either structurally (`PyDateTime`, for parsing/formatting) or as the
integer number of microseconds from the proleptic-Gregorian epoch
(ordinal day 0), which is exactly the resolution of CPython datetime
arithmetic.  `timedelta` is the normalized (days, seconds, microseconds)
triple CPython stores.
-/

namespace StudentAssistance

/-- Python `datetime.timedelta`: CPython normalizes every construction to a
(days, seconds, microseconds) triple with `0 <= seconds < 86400` and
`0 <= microseconds < 1000000`, using floor division. -/
structure Timedelta where
  days : Int
  seconds : Int
  microseconds : Int
deriving DecidableEq

/-- Python `timedelta(hours=h)`: `h` hours are normalized into days and
seconds by floor division, as CPython does. -/
def timedelta_hours (h : Int) : Timedelta :=
  ⟨(h * 3600).fdiv 86400, (h * 3600).fmod 86400, 0⟩

/-- Python `timedelta(days=d)`. -/
def timedelta_days (d : Int) : Timedelta :=
  ⟨d, 0, 0⟩

/-- Total length of a `timedelta` in microseconds; CPython compares and adds
timedeltas by this total. -/
def td_us (t : Timedelta) : Int :=
  (t.days * 86400 + t.seconds) * 1000000 + t.microseconds

/-- Python `x or 0` applied to the nullable `remind_before_hours` column:
`None` (and `0`) collapse to `0`, any other integer is kept. -/
def or_zero : Option Int → Int
  | none => 0
  | some v => v

/-- Line 475 of src/Student-Assistance.py:
`remind_time = dt_obj - dt.timedelta(hours=remind_before or 0)`,
over the microsecond timeline (`due_us` is the due datetime in
microseconds). -/
def remind_time (due_us : Int) (remind_before : Option Int) : Int :=
  due_us - td_us (timedelta_hours (or_zero remind_before))

/-- Line 476 of src/Student-Assistance.py:
`remind_time > now and (remind_time - now) < horizon`, with all quantities
on the microsecond timeline.  The page instantiates the horizon with
`timedelta(days=7)`. -/
def isUpcoming (remind now horizon : Int) : Bool :=
  decide (remind > now) && decide (remind - now < horizon)

/-- The hard-coded reminder horizon `dt.timedelta(days=7)` of line 476,
in microseconds. -/
def horizon_us : Int :=
  td_us (timedelta_days 7)

/-- A time-zone-naive Python `datetime` value, field by field. -/
structure PyDateTime where
  year : Nat
  month : Nat
  day : Nat
  hour : Nat
  minute : Nat
  second : Nat
  microsecond : Nat
deriving DecidableEq

/-- Gregorian leap-year test, as in CPython's `datetime` module. -/
def isLeap (y : Nat) : Bool :=
  y % 4 == 0 && (y % 100 != 0 || y % 400 == 0)

/-- Number of days in a month of the proleptic Gregorian calendar. -/
def daysInMonth (y m : Nat) : Nat :=
  if m = 2 then (if isLeap y then 29 else 28)
  else if m = 4 ∨ m = 6 ∨ m = 9 ∨ m = 11 then 30
  else 31

/-- Days in year `y` strictly before month `m` (CPython `_days_before_month`). -/
def daysBeforeMonth (y m : Nat) : Nat :=
  let base :=
    if m ≤ 1 then 0 else if m = 2 then 31 else if m = 3 then 59 else if m = 4 then 90
    else if m = 5 then 120 else if m = 6 then 151 else if m = 7 then 181 else if m = 8 then 212
    else if m = 9 then 243 else if m = 10 then 273 else if m = 11 then 304 else 334
  if 3 ≤ m ∧ isLeap y then base + 1 else base

/-- Proleptic-Gregorian ordinal of a date (CPython `_ymd2ord`):
day 1 is 0001-01-01. -/
def toordinal (y m d : Nat) : Nat :=
  (y - 1) * 365 + ((y - 1) / 4 - (y - 1) / 100 + (y - 1) / 400) + daysBeforeMonth y m + d

/-- A naive `datetime` as microseconds from ordinal day 0; this is the
timeline CPython datetime comparison and subtraction work over. -/
def toTimestamp (t : PyDateTime) : Int :=
  ((((toordinal t.year t.month t.day) * 86400 + t.hour * 3600 + t.minute * 60 + t.second)
      * 1000000 + t.microsecond : Nat) : Int)

/-- Zero-pad a numeral to two digits (strftime `%m`, `%d`, `%H`, `%M`, `%S`). -/
def pad2 (n : Nat) : String :=
  if n < 10 then "0" ++ toString n else toString n

/-- Zero-pad a numeral to four digits (strftime `%Y`). -/
def pad4 (n : Nat) : String :=
  if n < 10 then "000" ++ toString n
  else if n < 100 then "00" ++ toString n
  else if n < 1000 then "0" ++ toString n
  else toString n

/-- Line 322 of src/Student-Assistance.py:
`dt_obj.strftime('%Y%m%dT%H%M%S')`. -/
def strftime_basic (t : PyDateTime) : String :=
  pad4 t.year ++ pad2 t.month ++ pad2 t.day ++ "T" ++ pad2 t.hour ++ pad2 t.minute ++ pad2 t.second

/-- Numeric value of a decimal digit character, `none` for non-digits. -/
def digitVal (c : Char) : Option Nat :=
  if c.isDigit then some (c.toNat - 48) else none

/-- Two decimal digit characters as a number below 100. -/
def d2v (a b : Char) : Option Nat := do
  pure ((← digitVal a) * 10 + (← digitVal b))

/-- Time-of-day part of `datetime.fromisoformat`, restricted to the shapes
this app ever stores: `HH:MM`, `HH:MM:SS` and `HH:MM:SS.ffffff`. -/
def fromisoformat_time : List Char → Option (Nat × Nat × Nat × Nat)
  | [h1, h2, ':', m1, m2] => do
    let h ← d2v h1 h2
    let mi ← d2v m1 m2
    if h ≤ 23 ∧ mi ≤ 59 then pure (h, mi, 0, 0) else none
  | [h1, h2, ':', m1, m2, ':', s1, s2] => do
    let h ← d2v h1 h2
    let mi ← d2v m1 m2
    let s ← d2v s1 s2
    if h ≤ 23 ∧ mi ≤ 59 ∧ s ≤ 59 then pure (h, mi, s, 0) else none
  | [h1, h2, ':', m1, m2, ':', s1, s2, '.', f1, f2, f3, f4, f5, f6] => do
    let h ← d2v h1 h2
    let mi ← d2v m1 m2
    let s ← d2v s1 s2
    let u1 ← d2v f1 f2
    let u2 ← d2v f3 f4
    let u3 ← d2v f5 f6
    if h ≤ 23 ∧ mi ≤ 59 ∧ s ≤ 59 then pure (h, mi, s, u1 * 10000 + u2 * 100 + u3) else none
  | _ => none

/-- Python `datetime.fromisoformat`, modelled for the naive ISO strings this
app produces and stores (`date.isoformat()` and `datetime.isoformat()`):
`YYYY-MM-DD` optionally followed by `T` and a time of day.  Returns `none`
exactly where CPython raises `ValueError` on these shapes. -/
def fromisoformat (s : String) : Option PyDateTime :=
  match s.data with
  | y1 :: y2 :: y3 :: y4 :: '-' :: m1 :: m2 :: '-' :: d1 :: d2 :: rest => do
    let yh ← d2v y1 y2
    let yl ← d2v y3 y4
    let y := yh * 100 + yl
    let m ← d2v m1 m2
    let d ← d2v d1 d2
    if 1 ≤ y ∧ 1 ≤ m ∧ m ≤ 12 ∧ 1 ≤ d ∧ d ≤ daysInMonth y m then
      match rest with
      | [] => pure (PyDateTime.mk y m d 0 0 0 0)
      | 'T' :: tcs => do
        let (h, mi, s, us) ← fromisoformat_time tcs
        pure (PyDateTime.mk y m d h mi s us)
      | _ => none
    else none
  | _ => none

/-- A row of the `tasks` table as selected by `list_tasks`
(src/Student-Assistance.py line 284): the 7-tuple
`(id, task, due_date, remind_before_hours, done, created_at, updated_at)`.
`due_date` is a nullable TEXT column, `remind_before_hours` a nullable
INTEGER column, `done` a 0/1 INTEGER. -/
structure Task where
  id : Int
  task : String
  due_date : Option String
  remind_before_hours : Option Int
  done : Int
  created_at : String
  updated_at : String
deriving DecidableEq

/-- Lines 315-331 of src/Student-Assistance.py: the content lines one task
contributes to the `lines` list of `tasks_to_ics`.  A task whose `due_date`
is NULL or falsy is skipped (`if not due_date: continue`), a task whose
`due_date` fails `datetime.fromisoformat` is skipped by the
`try/except: continue`, and every other task contributes one VEVENT
block. -/
def vevent_lines (t : Task) : List String :=
  match t.due_date with
  | none => []
  | some s =>
    if s = "" then []
    else
      match fromisoformat s with
      | none => []
      | some d =>
        let dtstamp := strftime_basic d
        let uid := "task-" ++ toString t.id ++ "@student-assist"
        ["BEGIN:VEVENT",
         "UID:" ++ uid,
         "DTSTAMP:" ++ dtstamp ++ "Z",
         "DTSTART:" ++ dtstamp ++ "Z",
         "SUMMARY:" ++ t.task,
         "END:VEVENT"]

/-- Lines 310-332 of src/Student-Assistance.py: the full `lines` list built
by `tasks_to_ics` before joining. -/
def ics_lines (tasks : List Task) : List String :=
  ["BEGIN:VCALENDAR", "VERSION:2.0", "PRODID:-//StudentAssistance//EN"]
    ++ tasks.flatMap vevent_lines ++ ["END:VCALENDAR"]

/-- Line 333 of src/Student-Assistance.py: `return "".join(lines).encode()`.
The join uses the EMPTY string as separator, so the content lines are
concatenated with no delimiter between them. -/
def tasks_to_ics (tasks : List Task) : String :=
  String.join (ics_lines tasks)

/-- The body of `tasks_to_ics` with the ambient clock made explicit:
the source of `tasks_to_ics` (lines 309-333) contains no call to
`datetime.utcnow()` or any other clock read, so the `now_us` parameter is
simply unused by the translated body. -/
def tasks_to_ics_at (now_us : Int) (tasks : List Task) : String :=
  String.join
    (["BEGIN:VCALENDAR", "VERSION:2.0", "PRODID:-//StudentAssistance//EN"]
      ++ tasks.flatMap vevent_lines ++ ["END:VCALENDAR"])

/-- A task passes the date guards of `tasks_to_ics` and `page_tasks`:
its `due_date` is present, truthy, and parses with
`datetime.fromisoformat`. -/
def due_parses (t : Task) : Bool :=
  match t.due_date with
  | none => false
  | some s => if s = "" then false else (fromisoformat s).isSome

/-- The projection of a task that `tasks_to_ics` actually reads:
`(id, task, due_date)` (lines 315-331 never touch `remind_before_hours`,
`done`, `created_at` or `updated_at`). -/
def export_view (t : Task) : Int × String × Option String :=
  (t.id, t.task, t.due_date)

/-- Lines 472-479 of src/Student-Assistance.py, for one task of the loop:
`if due_date:` then `try` parse, compute `remind_time`, and append
`(task, dt_obj, remind_time)` to `upcoming` when the reminder is upcoming;
any parse failure is swallowed by `except Exception: pass`.  The returned
pair components are on the microsecond timeline. -/
def planEntry (now_us : Int) (t : Task) : Option (String × Int × Int) :=
  match t.due_date with
  | none => none
  | some s =>
    if s = "" then none
    else
      match fromisoformat s with
      | none => none
      | some d =>
        let due := toTimestamp d
        let remind := remind_time due t.remind_before_hours
        if isUpcoming remind now_us horizon_us then some (t.task, due, remind) else none

/-- The `upcoming` accumulator loop of lines 455-479: tasks are visited in
list order and matching entries appended at the end. -/
def page_upcoming_aux (now_us : Int) (acc : List (String × Int × Int)) :
    List Task → List (String × Int × Int)
  | [] => acc
  | t :: ts =>
    match planEntry now_us t with
    | some e => page_upcoming_aux now_us (acc ++ [e]) ts
    | none => page_upcoming_aux now_us acc ts

/-- The complete `upcoming` list computed by `page_tasks` for a task
snapshot, starting from the empty accumulator of line 456. -/
def page_upcoming (now_us : Int) (tasks : List Task) : List (String × Int × Int) :=
  page_upcoming_aux now_us [] tasks

/-- Replace only the `done` field of a task (what `toggle_task` changes). -/
def setDone (b : Int) (t : Task) : Task :=
  ⟨t.id, t.task, t.due_date, t.remind_before_hours, b, t.created_at, t.updated_at⟩

/-- A full row of the `tasks` table, including the `user_id` column that
`list_tasks` filters on but does not select. -/
structure TaskRow where
  id : Int
  user_id : Int
  task : String
  due_date : Option String
  remind_before_hours : Option Int
  done : Int
  created_at : String
  updated_at : String
deriving DecidableEq

/-- The 7-tuple `list_tasks` selects from a row. -/
def rowTask (r : TaskRow) : Task :=
  ⟨r.id, r.task, r.due_date, r.remind_before_hours, r.done, r.created_at, r.updated_at⟩

/-- A string as its list of code points; SQLite's default BINARY collation
compares TEXT values byte-by-byte in UTF-8, which orders strings exactly
like code-point-wise lexicographic comparison. -/
def strKey (s : String) : List Nat :=
  s.data.map Char.toNat

/-- SQL `COALESCE(due_date,'')` from line 284: a NULL due date is compared
as the empty string. -/
def coalesce_due (t : Task) : String :=
  match t.due_date with
  | none => ""
  | some s => s

/-- The sort key of `ORDER BY done, COALESCE(due_date,''), updated_at DESC`
(line 284): lexicographically, `done` ascending, then the coalesced
due-date text ascending, then `updated_at` descending (encoded through
`OrderDual`). -/
def task_sort_key (t : Task) : Lex (Int × Lex (List Nat × (List Nat)ᵒᵈ)) :=
  toLex (t.done, toLex (strKey (coalesce_due t), OrderDual.toDual (strKey t.updated_at)))

/-- Row `a` may precede row `b` in the result of `list_tasks`. -/
def task_le (a b : Task) : Prop :=
  task_sort_key a ≤ task_sort_key b

instance : DecidableRel task_le :=
  fun a b => inferInstanceAs (Decidable (task_sort_key a ≤ task_sort_key b))

instance : IsTotal Task task_le :=
  ⟨fun a b => le_total (task_sort_key a) (task_sort_key b)⟩

instance : IsTrans Task task_le :=
  ⟨fun _ _ _ hab hbc => le_trans hab hbc⟩

/-- Lines 280-287 of src/Student-Assistance.py: `list_tasks` selects the
rows of one user and returns them ordered by
`done, COALESCE(due_date,''), updated_at DESC`.  The SQL sort is modelled
by `insertionSort` over `task_le`; only the ordering of the result is
specified by the query. -/
def list_tasks (user_id : Int) (rows : List TaskRow) : List Task :=
  List.insertionSort task_le ((rows.filter (fun r => r.user_id == user_id)).map rowTask)

/-- A row of the `notes` table as passed to `notes_to_pdf`:
`(id, title, content, attachment, created_at, updated_at)`. -/
structure Note where
  id : Int
  title : String
  content : String
  attachment : Option String
  created_at : String
  updated_at : String
deriving DecidableEq

/-- Python `updated_at.split('T')[0]` (line 301): the prefix of the string
before the first `T`. -/
def date_part (s : String) : String :=
  String.mk (s.data.takeWhile (fun c => c ≠ 'T'))

/-- The text `notes_to_pdf` writes into the document for one note
(lines 298-306): the bold heading `"title (updated date)"`, the note body,
and an `"Attachment: path"` line when an attachment is present. -/
def note_text (n : Note) : String :=
  n.title ++ " (updated " ++ date_part n.updated_at ++ ")"
    ++ n.content
    ++ (match n.attachment with
        | none => ""
        | some a => "Attachment: " ++ a)

/-- The user text contained in the FPDF page buffer after `notes_to_pdf`
has run its loop.  Modelled from the fpdf library boundary: `cell` and
`multi_cell` copy the passed text verbatim into the page buffer (the
surrounding PDF operators are plain ASCII and cannot fail to encode), so
only the title block and the per-note texts matter for encodability. -/
def pdf_text (notes : List Note) : String :=
  "Notes Export" ++ String.join (notes.map note_text)

/-- Python `str.encode('latin-1')` with the default strict error handler
(line 307): succeeds with the code-point bytes when every character is
below 256, and raises `UnicodeEncodeError` otherwise — it never replaces
or drops characters. -/
def encode_latin1 (s : String) : Except String (List Nat) :=
  if s.data.all (fun c => c.toNat ≤ 255) then Except.ok (s.data.map Char.toNat)
  else Except.error "UnicodeEncodeError"

/-- Lines 291-307 of src/Student-Assistance.py: `notes_to_pdf` renders every
note into the document buffer and returns
`pdf.output(dest='S').encode('latin-1')`, so the whole export raises as
soon as any rendered character is outside Latin-1. -/
def notes_to_pdf (notes : List Note) : Except String (List Nat) :=
  encode_latin1 (pdf_text notes)

/-- Whether an export result is a success. -/
def is_ok : Except String (List Nat) → Bool
  | Except.ok _ => true
  | Except.error _ => false

/-- Split a character stream at newline characters (accumulator holds the
current line reversed). -/
def split_newlines_aux (acc : List Char) : List Char → List String
  | [] => [String.mk acc.reverse]
  | c :: cs =>
    if c = '\n' then String.mk acc.reverse :: split_newlines_aux [] cs
    else split_newlines_aux (c :: acc) cs

/-- Content lines of a calendar payload: iCalendar is a line-delimited
format, so re-parsing starts by splitting the byte sequence into lines. -/
def split_newlines (s : String) : List String :=
  split_newlines_aux [] s.data

/-- Join content lines with newline separators — what a line-delimited
serialization of `ics_lines` would look like. -/
def join_nl : List String → String
  | [] => ""
  | [l] => l
  | l :: ls => l ++ "\n" ++ join_nl ls

/-- Whether the first list is an initial segment of the second. -/
def starts_with : List Char → List Char → Bool
  | [], _ => true
  | _ :: _, [] => false
  | p :: ps, c :: cs => p == c && starts_with ps cs

/-- Modelled from the spec: a line-based iCalendar re-parser.  It walks the
content lines, opens an event at `BEGIN:VEVENT`, records the values of the
`UID:`, `DTSTART:` and `SUMMARY:` properties, and emits the
`(UID, DTSTART, SUMMARY)` triple at `END:VEVENT`. -/
def parse_vevents : Option (String × String × String) → List String →
    List (String × String × String)
  | _, [] => []
  | none, l :: ls =>
    if l = "BEGIN:VEVENT" then parse_vevents (some ("", "", "")) ls
    else parse_vevents none ls
  | some (u, d, sm), l :: ls =>
    if l = "END:VEVENT" then (u, d, sm) :: parse_vevents none ls
    else if starts_with "UID:".data l.data then
      parse_vevents (some (String.mk (l.data.drop 4), d, sm)) ls
    else if starts_with "DTSTART:".data l.data then
      parse_vevents (some (u, String.mk (l.data.drop 8), sm)) ls
    else if starts_with "SUMMARY:".data l.data then
      parse_vevents (some (u, d, String.mk (l.data.drop 8))) ls
    else parse_vevents (some (u, d, sm)) ls

/-- Re-parse a calendar byte sequence into its `(UID, DTSTART, SUMMARY)`
triples. -/
def parse_ics_events (s : String) : List (String × String × String) :=
  parse_vevents none (split_newlines s)

/-- The `(UID, DTSTART, SUMMARY)` triple a valid-dated task should
round-trip to, per the spec: UID derived from the task id, DTSTART the
due time in UTC basic format, SUMMARY the description verbatim. -/
def task_triple (t : Task) : Option (String × String × String) :=
  match t.due_date with
  | none => none
  | some s =>
    if s = "" then none
    else
      match fromisoformat s with
      | none => none
      | some d =>
        some ("task-" ++ toString t.id ++ "@student-assist", strftime_basic d ++ "Z", t.task)

/-- Modelled from the spec: the output is a syntactically complete document
wrapped in `BEGIN:VCALENDAR` / `VERSION:2.0` / a product identifier /
`END:VCALENDAR` — as content lines of a line-delimited calendar
payload. -/
def wrapped_vcalendar (s : String) : Bool :=
  let ls := split_newlines s
  decide (ls.head? = some "BEGIN:VCALENDAR")
    && decide ("VERSION:2.0" ∈ ls)
    && ls.any (fun l => starts_with "PRODID:".data l.data)
    && decide (ls.getLast? = some "END:VCALENDAR")

/-- Modelled from the spec: due-date rank with absent-LAST, as claim C8
words the ordering (`dueAt ascending with tasks having an absent dueAt
placed last`). -/
def due_rank_absent_last (t : Task) : Lex (Nat × List Nat) :=
  match t.due_date with
  | none => toLex (1, [])
  | some s => toLex (0, strKey s)

/-- Modelled from the spec: the ordering claim C8 asserts for `list_tasks`:
`done` ascending, then due date ascending with absent placed last, then
`updated_at` descending. -/
def claimed_le (a b : Task) : Prop :=
  a.done < b.done ∨ (a.done = b.done ∧
    (due_rank_absent_last a < due_rank_absent_last b ∨
      (due_rank_absent_last a = due_rank_absent_last b ∧
        strKey b.updated_at ≤ strKey a.updated_at)))

instance : DecidableRel claimed_le :=
  fun a b => inferInstanceAs (Decidable (_ ∨ _))

/-- A task with a valid due date, used to exercise the calendar export. -/
def task_c1 : Task :=
  ⟨1, "Exam", some "2025-03-10T09:00:00", some 2, 0, "2025-03-01T00:00:00", "2025-03-01T00:00:00"⟩

/-- The current time of the spec scenario: 2025-03-08T09:00:00 UTC. -/
def now_c4 : Int :=
  toTimestamp (PyDateTime.mk 2025 3 8 9 0 0 0)

/-- The spec-scenario task: due 2025-03-10T09:00:00, 2 hours lead. -/
def task_c4good : Task :=
  ⟨5, "Essay", some "2025-03-10T09:00:00", some 2, 0, "a", "b"⟩

/-- A task without a due date. -/
def task_c4bad : Task :=
  ⟨6, "No due", none, some 0, 0, "a", "b"⟩

/-- A task whose due date text does not parse as an ISO date-time. -/
def task_c5bad : Task :=
  ⟨7, "Unparsable", some "tomorrow", some 0, 0, "a", "b"⟩

/-- A task with a parsable due date. -/
def task_c5good : Task :=
  ⟨8, "Dated", some "2025-05-01T10:00:00", some 0, 0, "a", "b"⟩

/-- A snapshot of a task. -/
def task_c7a : Task :=
  ⟨3, "Lab report", some "2025-04-01T12:00:00", some 1, 0, "a", "b"⟩

/-- The same task after mutations of the fields the export does not read
(`remind_before_hours`, `done`, `created_at`, `updated_at`). -/
def task_c7b : Task :=
  ⟨3, "Lab report", some "2025-04-01T12:00:00", some 5, 1, "x", "y"⟩

/-- A stored row with a NULL due date. -/
def row_no_due : TaskRow :=
  ⟨1, 1, "write essay", none, some 0, 0, "2025-03-01T10:00:00", "2025-03-02T10:00:00"⟩

/-- A stored row of the same user, same `done` status, with a due date. -/
def row_with_due : TaskRow :=
  ⟨2, 1, "read paper", some "2025-03-10T09:00:00", some 0, 0, "2025-03-01T11:00:00", "2025-03-02T09:00:00"⟩

/-- A note whose text is entirely Latin-1 representable. -/
def note_plain : Note :=
  ⟨1, "Algebra", "Group theory basics", none, "2025-03-01T10:00:00", "2025-03-02T10:00:00"⟩

/-- A note containing the euro sign, a character outside Latin-1. -/
def note_euro : Note :=
  ⟨2, "Budget", "Costs 10€ total", none, "2025-03-01T10:00:00", "2025-03-02T10:00:00"⟩

/-- The current time used for the done-flag scenario. -/
def now_c10 : Int :=
  toTimestamp (PyDateTime.mk 2025 3 8 9 0 0 0)

/-- A task already marked done, with an upcoming reminder. -/
def task_c10 : Task :=
  ⟨4, "Submit form", some "2025-03-10T09:00:00", some 2, 1, "a", "b"⟩

/-- The reminder entry `page_tasks` computes for `task_c10`. -/
def entry_c10 : String × Int × Int :=
  ("Submit form", toTimestamp (PyDateTime.mk 2025 3 10 9 0 0 0),
    toTimestamp (PyDateTime.mk 2025 3 10 7 0 0 0))

/-- The `upcoming` accumulator loop is append-then-filterMap: entries come
out in input order. -/
theorem page_upcoming_aux_eq (now_us : Int) :
    ∀ (ts : List Task) (acc : List (String × Int × Int)),
      page_upcoming_aux now_us acc ts = acc ++ ts.filterMap (planEntry now_us) := by
  intro ts
  induction ts with
  | nil => intro acc; simp [page_upcoming_aux]
  | cons t ts ih =>
    intro acc
    cases h : planEntry now_us t with
    | none => simp [page_upcoming_aux, h, ih, List.filterMap_cons]
    | some e => simp [page_upcoming_aux, h, ih, List.filterMap_cons]

/-- The `upcoming` list of `page_tasks` is exactly a `filterMap` over the
input snapshot. -/
theorem page_upcoming_eq (now_us : Int) (ts : List Task) :
    page_upcoming now_us ts = ts.filterMap (planEntry now_us) := by
  simp [page_upcoming, page_upcoming_aux_eq]

/-- A task failing the date guards contributes no event lines. -/
theorem vevent_lines_eq_nil (t : Task) (h : due_parses t = false) : vevent_lines t = [] := by
  cases hd : t.due_date with
  | none => simp [vevent_lines, hd]
  | some s =>
    simp only [due_parses, hd] at h
    by_cases hs : s = ""
    · simp [vevent_lines, hd, hs]
    · simp only [if_neg hs] at h
      cases hf : fromisoformat s with
      | some d => rw [hf] at h; simp at h
      | none => simp [vevent_lines, hd, hs, hf]

/-- Dropping the tasks that fail the date guards does not change the event
lines. -/
theorem flatMap_vevent_filter :
    ∀ ts : List Task, ts.flatMap vevent_lines = (ts.filter due_parses).flatMap vevent_lines := by
  intro ts
  induction ts with
  | nil => rfl
  | cons t ts ih =>
    cases h : due_parses t with
    | true => simp [List.filter_cons, h, ih]
    | false => simp [List.filter_cons, h, vevent_lines_eq_nil t h, ih]

/-- Two strings with different first characters are different. -/
theorem ne_of_head_ne (a q : String) (c : Char) (ha : a.data.head? = some c)
    (hq : q.data.head? ≠ some c) : a ≠ q := by
  intro he
  exact hq (by rw [← he, ha])

/-- A task passing the date guards contributes exactly one `BEGIN:VEVENT`
line. -/
theorem count_vevent_eq_one (t : Task) (h : due_parses t = true) :
    (vevent_lines t).count "BEGIN:VEVENT" = 1 := by
  cases hd : t.due_date with
  | none => simp [due_parses, hd] at h
  | some s =>
    simp only [due_parses, hd] at h
    by_cases hs : s = ""
    · rw [if_pos hs] at h; exact absurd h (by simp)
    · rw [if_neg hs] at h
      cases hf : fromisoformat s with
      | none => rw [hf] at h; simp at h
      | some d =>
        have e1 : ("UID:" ++ ("task-" ++ toString t.id ++ "@student-assist")) ≠ "BEGIN:VEVENT" :=
          ne_of_head_ne _ _ 'U' rfl (by decide)
        have e2 : ("DTSTAMP:" ++ strftime_basic d ++ "Z") ≠ "BEGIN:VEVENT" :=
          ne_of_head_ne _ _ 'D' rfl (by decide)
        have e3 : ("DTSTART:" ++ strftime_basic d ++ "Z") ≠ "BEGIN:VEVENT" :=
          ne_of_head_ne _ _ 'D' rfl (by decide)
        have e4 : ("SUMMARY:" ++ t.task) ≠ "BEGIN:VEVENT" :=
          ne_of_head_ne _ _ 'S' rfl (by decide)
        simp [vevent_lines, hd, hs, hf, List.count_cons, e1, e2, e3, e4]

/-- The number of `BEGIN:VEVENT` lines equals the number of tasks passing
the date guards. -/
theorem count_flatMap_vevent :
    ∀ ts : List Task,
      (ts.flatMap vevent_lines).count "BEGIN:VEVENT" = (ts.filter due_parses).length := by
  intro ts
  induction ts with
  | nil => rfl
  | cons t ts ih =>
    cases h : due_parses t with
    | true =>
      simp [List.flatMap_cons, List.count_append, List.filter_cons, h, ih,
        count_vevent_eq_one t h, Nat.add_comm]
    | false =>
      simp [List.flatMap_cons, List.count_append, List.filter_cons, h, ih,
        vevent_lines_eq_nil t h]

/-- The event lines depend only on the `(id, task, due_date)` projection of
each task. -/
theorem flatMap_vevent_view :
    ∀ (l1 l2 : List Task), l1.map export_view = l2.map export_view →
      l1.flatMap vevent_lines = l2.flatMap vevent_lines := by
  intro l1
  induction l1 with
  | nil =>
    intro l2 h
    cases l2 with
    | nil => rfl
    | cons b bs => simp at h
  | cons a as ih =>
    intro l2 h
    cases l2 with
    | nil => simp at h
    | cons b bs =>
      simp only [List.map_cons, List.cons.injEq] at h
      obtain ⟨hab, hrest⟩ := h
      have hv : vevent_lines a = vevent_lines b := by
        simp only [export_view, Prod.mk.injEq] at hab
        obtain ⟨h1, h2, h3⟩ := hab
        simp only [vevent_lines, h1, h2, h3]
      simp [List.flatMap_cons, hv, ih bs hrest]

/-- C2: for every reminder time `r`, current time `now`, and horizon `h`,
the upcoming test of line 476 returns true iff `r > now` and
`(r - now) < h`; in particular it is false whenever `r ≤ now` and false
whenever `r ≥ now + h`. -/
theorem isUpcoming_spec : ∀ (r now h : Int),
    (isUpcoming r now h = true ↔ (r > now ∧ r - now < h))
    ∧ (r ≤ now → isUpcoming r now h = false)
    ∧ (now + h ≤ r → isUpcoming r now h = false) := by
  intro r now h
  refine ⟨?_, ?_, ?_⟩
  · simp [isUpcoming]
  · intro hle
    simp only [isUpcoming, Bool.and_eq_false_iff, decide_eq_false_iff_not]
    omega
  · intro hge
    simp only [isUpcoming, Bool.and_eq_false_iff, decide_eq_false_iff_not]
    omega

/-- Witness for C2 at concrete inputs: reminder strictly inside the window
is upcoming, at-or-before now is not, at-or-past the horizon is not. -/
theorem isUpcoming_spec_witness :
    isUpcoming 5 3 100 = true ∧ isUpcoming 2 3 100 = false
      ∧ isUpcoming 300 3 100 = false :=
  ⟨(isUpcoming_spec 5 3 100).1.mpr (by decide),
   (isUpcoming_spec 2 3 100).2.1 (by decide),
   (isUpcoming_spec 300 3 100).2.2 (by decide)⟩

/-- C3: for every present due timestamp `D` (in microseconds) and every
lead `L ≥ 0`, the reminder time of line 475 is exactly `D` minus `L`
hours — `L * 3600 * 1000000` microseconds — with no rounding drift; an
absent lead counts as zero hours. -/
theorem remind_time_exact : ∀ (D L : Int), 0 ≤ L →
    remind_time D (some L) = D - L * 3600 * 1000000
    ∧ remind_time D none = D := by
  intro D L hL
  constructor
  · have h := Int.fdiv_add_fmod (L * 3600) 86400
    unfold remind_time td_us timedelta_hours or_zero
    linear_combination (-1000000 : Int) * h
  · have h0 : timedelta_hours (or_zero none) = (⟨0, 0, 0⟩ : Timedelta) := by decide
    simp [remind_time, h0, td_us]

/-- Witness for C3 at the spec scenario: two hours of lead before
2025-03-10T09:00:00 give exactly 2025-03-10T07:00:00. -/
theorem remind_time_exact_witness :
    (0 : Int) ≤ 2
    ∧ remind_time (toTimestamp (PyDateTime.mk 2025 3 10 9 0 0 0)) (some 2)
        = toTimestamp (PyDateTime.mk 2025 3 10 9 0 0 0) - 2 * 3600 * 1000000 :=
  ⟨by decide,
   (remind_time_exact (toTimestamp (PyDateTime.mk 2025 3 10 9 0 0 0)) 2 (by decide)).1⟩

/-- C4: the reminder-planning loop of lines 455-479 outputs its retained
entries in the insertion order of the input list (it is exactly a
`filterMap`, with no re-sorting), and a task with an absent or malformed
due date is skipped silently without aborting the rest of the list. -/
theorem page_upcoming_stable : ∀ (now_us : Int) (tasks pre post : List Task) (bad : Task),
    page_upcoming now_us tasks = tasks.filterMap (planEntry now_us)
    ∧ (bad.due_date = none → planEntry now_us bad = none)
    ∧ (∀ s, bad.due_date = some s → fromisoformat s = none → planEntry now_us bad = none)
    ∧ (planEntry now_us bad = none →
        page_upcoming now_us (pre ++ bad :: post) = page_upcoming now_us (pre ++ post)) := by
  intro now_us tasks pre post bad
  refine ⟨page_upcoming_eq now_us tasks, ?_, ?_, ?_⟩
  · intro h
    simp [planEntry, h]
  · intro s hs hf
    by_cases he : s = ""
    · simp [planEntry, hs, he]
    · simp [planEntry, hs, he, hf]
  · intro h
    simp [page_upcoming_eq, List.filterMap_append, List.filterMap_cons, h]

/-- Witness for C4 at a concrete snapshot: a dated task followed by an
undated one; the undated task is skipped and removing it from the input
leaves the output unchanged. -/
theorem page_upcoming_stable_witness :
    planEntry now_c4 task_c4bad = none
    ∧ page_upcoming now_c4 [task_c4good, task_c4bad]
        = [task_c4good, task_c4bad].filterMap (planEntry now_c4)
    ∧ page_upcoming now_c4 ([task_c4good] ++ task_c4bad :: [])
        = page_upcoming now_c4 ([task_c4good] ++ []) := by
  have h := page_upcoming_stable now_c4 [task_c4good, task_c4bad] [task_c4good] [] task_c4bad
  exact ⟨h.2.1 rfl, h.1, h.2.2.2 (h.2.1 rfl)⟩

/-- C5: `tasks_to_ics` is a total function and, for every input list, a
task with an absent, empty or unparsable due date contributes no event
lines (dropping all such tasks leaves the output byte-identical), while
every task passing the date guards still contributes exactly one
`BEGIN:VEVENT` line. -/
theorem tasks_to_ics_skips_invalid : ∀ tasks : List Task,
    tasks_to_ics tasks = tasks_to_ics (tasks.filter due_parses)
    ∧ (∀ t ∈ tasks, due_parses t = false → vevent_lines t = [])
    ∧ (ics_lines tasks).count "BEGIN:VEVENT" = (tasks.filter due_parses).length := by
  intro tasks
  refine ⟨?_, fun t _ h => vevent_lines_eq_nil t h, ?_⟩
  · unfold tasks_to_ics ics_lines
    rw [flatMap_vevent_filter]
  · have h1 := count_flatMap_vevent tasks
    have hh : (["BEGIN:VCALENDAR", "VERSION:2.0",
        "PRODID:-//StudentAssistance//EN"] : List String).count "BEGIN:VEVENT" = 0 := by decide
    have hf : (["END:VCALENDAR"] : List String).count "BEGIN:VEVENT" = 0 := by decide
    simp [ics_lines, List.count_append, hh, hf, h1]

/-- Witness for C5 at a concrete list: the unparsable task contributes
nothing and the dated task is still exported. -/
theorem tasks_to_ics_skips_invalid_witness :
    tasks_to_ics [task_c5good, task_c5bad]
      = tasks_to_ics ([task_c5good, task_c5bad].filter due_parses)
    ∧ vevent_lines task_c5bad = []
    ∧ (ics_lines [task_c5good, task_c5bad]).count "BEGIN:VEVENT" = 1 := by
  have h := tasks_to_ics_skips_invalid [task_c5good, task_c5bad]
  exact ⟨h.1, h.2.1 task_c5bad (by decide) (by decide), h.2.2.trans (by decide)⟩

/-- C6: on a list with zero valid-dated tasks the export still returns the
four wrapper markers and no VEVENT content — but they come out as ONE
unbroken line, because line 333 joins the content lines with the empty
string: the result contains no newline at all and fails the line-based
wrapped-document check, while the newline-joined `lines` list passes it.
The claim calls the output a syntactically complete wrapped document; the
code produces the wrapper text without any line structure. -/
theorem tasks_to_ics_empty_unwrapped :
    tasks_to_ics [] = "BEGIN:VCALENDARVERSION:2.0PRODID:-//StudentAssistance//ENEND:VCALENDAR"
    ∧ (tasks_to_ics []).data.count '\n' = 0
    ∧ wrapped_vcalendar (tasks_to_ics []) = false
    ∧ wrapped_vcalendar (join_nl (ics_lines [])) = true
    ∧ parse_ics_events (join_nl (ics_lines [])) = [] :=
  ⟨by decide, by decide, by decide, by decide, by decide⟩

/-- C7: the calendar export is deterministic — with the ambient clock made
explicit, two calls at different clock values produce the same bytes (the
source never reads the clock, so there is no embedded export timestamp),
and the output depends only on the `(id, task, due_date)` projection of
the snapshot. -/
theorem tasks_to_ics_deterministic : ∀ (n1 n2 : Int) (ts1 ts2 : List Task),
    tasks_to_ics_at n1 ts1 = tasks_to_ics_at n2 ts1
    ∧ tasks_to_ics_at n1 ts1 = tasks_to_ics ts1
    ∧ (ts1.map export_view = ts2.map export_view → tasks_to_ics ts1 = tasks_to_ics ts2) := by
  intro n1 n2 ts1 ts2
  refine ⟨rfl, rfl, fun h => ?_⟩
  unfold tasks_to_ics ics_lines
  rw [flatMap_vevent_view ts1 ts2 h]

/-- Witness for C7: exports at two different clock instants agree, and two
snapshots of the same task differing in `done`, lead hours and timestamps
export byte-identically. -/
theorem tasks_to_ics_deterministic_witness :
    tasks_to_ics_at 0 [task_c7a] = tasks_to_ics_at 999999 [task_c7a]
    ∧ tasks_to_ics [task_c7a] = tasks_to_ics [task_c7b] :=
  ⟨(tasks_to_ics_deterministic 0 999999 [task_c7a] [task_c7a]).1,
   (tasks_to_ics_deterministic 0 0 [task_c7a] [task_c7b]).2.2 (by decide)⟩

/-- C1: the round-trip fails on the actual code.  For a single valid task
the expected `(UID, DTSTART, SUMMARY)` triple is
`(task-1@student-assist, 20250310T090000Z, Exam)`, and a line-based
iCalendar re-parse of the newline-joined content lines recovers exactly
that triple — but the code joins the lines with the EMPTY separator
(line 333), so its output is a single unbroken line from which the
re-parse recovers no triple at all. -/
theorem ics_reparse_fails :
    task_triple task_c1 = some ("task-1@student-assist", "20250310T090000Z", "Exam")
    ∧ parse_ics_events (join_nl (ics_lines [task_c1]))
        = [("task-1@student-assist", "20250310T090000Z", "Exam")]
    ∧ (tasks_to_ics [task_c1]).data.count '\n' = 0
    ∧ parse_ics_events (tasks_to_ics [task_c1]) = [] :=
  ⟨by decide, by decide, by decide, by decide⟩

/-- C8 counterexample: two rows of the same user with equal `done` status,
one with a NULL due date and one with a due date.  `COALESCE(due_date,'')`
makes the NULL row compare as the empty string, which precedes every
nonempty due-date text, so `list_tasks` returns the absent-due row FIRST —
the output is not sorted by the claimed absent-LAST ordering. -/
theorem list_tasks_absent_first_cex :
    list_tasks 1 [row_with_due, row_no_due] = [rowTask row_no_due, rowTask row_with_due]
    ∧ ¬ List.Sorted claimed_le (list_tasks 1 [row_with_due, row_no_due]) := by
  have h1 : list_tasks 1 [row_with_due, row_no_due]
      = [rowTask row_no_due, rowTask row_with_due] := by decide
  refine ⟨h1, ?_⟩
  rw [h1]
  intro hs
  have h2 := (List.sorted_cons.mp hs).1 (rowTask row_with_due) (by simp)
  exact absurd h2 (by decide)

/-- C8 amended: `list_tasks` returns the rows of the requested user ordered
by `done` ascending, then the NULL-coalesced due-date text ascending —
which places tasks with an absent due date FIRST, before any task with a
due date, not last — then `updated_at` descending. -/
theorem list_tasks_order_amended : ∀ (uid : Int) (rows : List TaskRow),
    List.Sorted task_le (list_tasks uid rows)
    ∧ (list_tasks uid rows).Perm ((rows.filter (fun r => r.user_id == uid)).map rowTask)
    ∧ ∀ a b : Task, task_le a b ↔
        (a.done < b.done ∨ (a.done = b.done ∧
          (strKey (coalesce_due a) < strKey (coalesce_due b) ∨
            (strKey (coalesce_due a) = strKey (coalesce_due b) ∧
              strKey b.updated_at ≤ strKey a.updated_at)))) := by
  intro uid rows
  refine ⟨List.sorted_insertionSort task_le _, List.perm_insertionSort task_le _, ?_⟩
  intro a b
  unfold task_le task_sort_key
  simp [Prod.Lex.le_iff]

/-- C9: the document export fails as a whole on one non-Latin-1 character.
A note list whose texts are Latin-1 encodes fine, but adding a single note
containing a euro sign makes the strict `encode('latin-1')` of line 307
raise `UnicodeEncodeError`, aborting the entire export instead of
substituting the character. -/
theorem notes_to_pdf_unicode_failure :
    is_ok (notes_to_pdf [note_plain]) = true
    ∧ is_ok (notes_to_pdf [note_plain, note_euro]) = false
    ∧ notes_to_pdf [note_plain, note_euro] = Except.error "UnicodeEncodeError" :=
  ⟨by decide, by decide, rfl⟩

/-- C10: neither the reminder loop of lines 456-479 nor the export of
lines 315-331 consults `done`: the plan entry and the event lines of a
task are invariant under any change of its `done` field, a task whose
reminder passes the upcoming test appears in the reminders output, and
every event line of a valid-dated task appears in the export lines —
regardless of its `done` value. -/
theorem done_not_consulted :
    ∀ (now_us b : Int) (t : Task) (tasks : List Task) (e : String × Int × Int),
    planEntry now_us (setDone b t) = planEntry now_us t
    ∧ vevent_lines (setDone b t) = vevent_lines t
    ∧ (t ∈ tasks → planEntry now_us t = some e → e ∈ page_upcoming now_us tasks)
    ∧ (t ∈ tasks → ∀ l ∈ vevent_lines t, l ∈ ics_lines tasks) := by
  intro now_us b t tasks e
  refine ⟨rfl, rfl, fun ht he => ?_, fun ht l hl => ?_⟩
  · rw [page_upcoming_eq]
    exact List.mem_filterMap.mpr ⟨t, ht, he⟩
  · unfold ics_lines
    exact List.mem_append.mpr (Or.inl (List.mem_append.mpr (Or.inr
      (List.mem_flatMap.mpr ⟨t, ht, hl⟩))))

/-- Witness for C10: a task already marked done (`done = 1`) still appears
in the upcoming reminders and its SUMMARY line still appears in the
export. -/
theorem done_not_consulted_witness :
    planEntry now_c10 (setDone 1 task_c10) = planEntry now_c10 task_c10
    ∧ entry_c10 ∈ page_upcoming now_c10 [task_c10]
    ∧ "SUMMARY:Submit form" ∈ ics_lines [task_c10] := by
  have h := done_not_consulted now_c10 1 task_c10 [task_c10] entry_c10
  exact ⟨h.1, h.2.2.1 (by decide) (by decide), h.2.2.2 (by decide) "SUMMARY:Submit form" (by decide)⟩

end StudentAssistance
